import Mathlib

/-
Verification of the kibana stats x-pack event mapping
(metricbeat/module/kibana/stats/data_xpack.go) against its specification.

The declarative schema-application engine (package
libbeat/common/schema with its mapstriface combinators) is consumed by
the given source file but its own code is not part of the given sources;
it is modelled here from the specification (spec.md sections 3, 4.1 and 7):
values are a closed dynamic type, a schema is an ordered mapping from
target field names to leaf/nested/object nodes, and application walks the
schema in order, resolving dotted source keys against the input document,
coercing primitive values and aggregating per-field errors.

The event-mapping function itself (eventMappingXPack) is translated
line by line from the Go source.
-/

namespace KibanaStats

/-
Modelled from the spec: the dynamic value type produced by generic
document decoding, a closed sum (spec section 3, "Value"), extended with
the output-only representations an assembled event holds: 64-bit integers
produced by Int coercion and the capture timestamp written by the
assembler.  Numbers carry rational values standing in for float64
payload numbers; sequences are omitted because neither the given schema
nor the mapping function ever produces or inspects one.
-/
inductive Value where
  | null
  | bool (b : Bool)
  | num (q : Rat)
  | str (s : String)
  | int (n : Int)
  | time (t : Int)
  | doc (fields : List (String × Value))

/- A decoded document: an ordered association list of string keys. -/
abbrev Document := List (String × Value)

/- First-match key lookup, the model of Go map indexing. -/
def getKey : Document → String → Option Value
  | [], _ => none
  | (k, v) :: rest, key => if k = key then some v else getKey rest key

/- Replace the value at a key in place, or append the key when absent:
the model of Go map assignment on an ordered document. -/
def setKey : Document → String → Value → Document
  | [], key, v => [(key, v)]
  | (k, w) :: rest, key, v =>
    if k = key then (key, v) :: rest else (k, w) :: setKey rest key v

/- Split a source key on dots, character by character (the model of the
dotted-path lookup used both by schema source keys and by MapStr.Put). -/
def splitDotsAux : List Char → List Char → List String
  | [], acc => [String.mk acc.reverse]
  | c :: cs, acc =>
    if c = '.' then String.mk acc.reverse :: splitDotsAux cs []
    else splitDotsAux cs (c :: acc)

def splitDots (s : String) : List String :=
  splitDotsAux s.data []

/- Resolve an already-split dotted path against a document: descend
through sub-documents, failing when a segment is absent or a
non-document stands where further descent is required. -/
def getPath : Document → List String → Option Value
  | _, [] => none
  | d, [k] => getKey d k
  | d, k :: k2 :: rest =>
    match getKey d k with
    | some (.doc sub) => getPath sub (k2 :: rest)
    | _ => none

/- Resolve a (possibly dotted) schema source key against a document. -/
def resolve (d : Document) (sourceKey : String) : Option Value :=
  getPath d (splitDots sourceKey)

/- Write a value at an already-split dotted path, synthesizing
intermediate sub-documents where the path runs through a missing or
non-document entry: the model of common.MapStr.Put. -/
def putPath : Document → List String → Value → Document
  | d, [], _ => d
  | d, [k], v => setKey d k v
  | d, k :: k2 :: rest, v =>
    match getKey d k with
    | some (.doc sub) => setKey d k (.doc (putPath sub (k2 :: rest) v))
    | _ => setKey d k (.doc (putPath [] (k2 :: rest) v))

/-
Modelled from the spec: the leaf conversion kinds of the schema
language (spec section 3, "SchemaNode"): Int, Float, String, Bool.
-/
inductive Kind where
  | int
  | float
  | str
  | bool

/- Truncation of a rational toward zero, the model both of the Int
schema coercion and of Go's int64(float64) conversion. -/
def truncNum (q : Rat) : Int :=
  Int.tdiv q.num q.den

/-
Modelled from the spec: primitive coercion of a present value to a leaf
kind (spec section 4.1): Int accepts a Number and truncates toward
zero, Float accepts a Number as-is, Bool and String require an exact
tag match; any other combination is a type mismatch (None).
-/
def coerce : Kind → Value → Option Value
  | .int, .num q => some (.int (truncNum q))
  | .float, .num q => some (.num q)
  | .str, .str s => some (.str s)
  | .bool, .bool b => some (.bool b)
  | _, _ => none

/-
Modelled from the spec: the error taxonomy of soft per-field errors
(spec section 7): a required field absent from the input, or a present
value of an incompatible primitive kind.
-/
inductive ErrCause where
  | missingField
  | typeMismatch
deriving DecidableEq

structure FieldError where
  path : String
  cause : ErrCause
deriving DecidableEq

/- Prefix a nested error's path with the parent node's source key. -/
def prependPath (parent : String) (e : FieldError) : FieldError :=
  ⟨parent ++ "." ++ e.path, e.cause⟩

/-
Modelled from the spec: the schema language (spec section 3): an
ordered mapping of target field names to nodes, a node being a leaf
conversion (source key, kind, optional flag), a nested dictionary
(source key, child schema, optional flag — the model of the c.Dict
combinator with or without c.DictOptional), or an embedded object whose
child schema is applied to the same level of the input (the model of
s.Object).
-/
mutual
inductive SchemaNode where
  | leaf (sourceKey : String) (kind : Kind) (optional : Bool)
  | nested (sourceKey : String) (child : Schema) (optional : Bool)
  | object (child : Schema)

inductive Schema where
  | nil
  | cons (fname : String) (node : SchemaNode) (rest : Schema)
end

/- Build a schema from an ordered list of (target name, node) pairs. -/
def schemaOfList : List (String × SchemaNode) → Schema
  | [] => .nil
  | (f, n) :: rest => .cons f n (schemaOfList rest)

/- The target field names of a schema, in declaration order. -/
def schemaNames : Schema → List String
  | .nil => []
  | .cons f _ rest => f :: schemaNames rest

/-
Modelled from the spec: the traversal engine (spec section 4.1,
"Applier").  Every node is processed in schema-declaration order; a
resolved leaf is coerced, an absent source key is skipped when the node
is optional and yields a MissingField error otherwise, a present value
of the wrong shape yields a TypeMismatch, a nested node recursively
applies its child schema to the resolved sub-document with its errors
path-prefixed by the parent source key, and an object node applies its
child schema to the current document.  The output document and the
error list are both accumulated in declaration order; output is always
produced, errors notwithstanding (best-effort mapping).
-/
mutual
def applyNode (fname : String) (node : SchemaNode) (d : Document) :
    Document × List FieldError :=
  match node with
  | .leaf sk kind opt =>
    match resolve d sk with
    | none => if opt then ([], []) else ([], [⟨sk, .missingField⟩])
    | some v =>
      match coerce kind v with
      | some w => ([(fname, w)], [])
      | none => ([], [⟨sk, .typeMismatch⟩])
  | .nested sk child opt =>
    match resolve d sk with
    | none => if opt then ([], []) else ([], [⟨sk, .missingField⟩])
    | some (.doc sub) =>
      let r := applySchema child sub
      ([(fname, .doc r.1)], r.2.map (prependPath sk))
    | some _ => ([], [⟨sk, .typeMismatch⟩])
  | .object child =>
    let r := applySchema child d
    ([(fname, .doc r.1)], r.2)

def applySchema (s : Schema) (d : Document) : Document × List FieldError :=
  match s with
  | .nil => ([], [])
  | .cons fname node rest =>
    let hd := applyNode fname node d
    let tl := applySchema rest d
    (hd.1 ++ tl.1, hd.2 ++ tl.2)
end

/-
Modelled from the spec: RequestsDict is referenced by the given source
(data_xpack.go line 58) but defined in a sibling file that is not among
the given sources.  Per the spec's treatment of per-subsystem counter
dictionaries (section 7: an optional subsystem's absent counters must
not reject the collection cycle), it is modelled as a required
dictionary of optional integer counters.
-/
def RequestsDict : SchemaNode :=
  .nested "requests" (schemaOfList
    [("disconnects", .leaf "disconnects" .int true),
     ("total", .leaf "total" .int true)]) false

/- reportingCsvDict, translated from data_xpack.go lines 109-112. -/
def reportingCsvDict : SchemaNode :=
  .nested "csv" (schemaOfList
    [("available", .leaf "available" .bool false),
     ("total", .leaf "total" .int false)]) true

/- reportingPrintablePdfDict, translated from data_xpack.go lines 114-125. -/
def reportingPrintablePdfDict : SchemaNode :=
  .nested "printable_pdf" (schemaOfList
    [("available", .leaf "available" .bool false),
     ("total", .leaf "total" .int false),
     ("app", .nested "app" (schemaOfList
       [("visualization", .leaf "visualization" .int false),
        ("dashboard", .leaf "dashboard" .int false)]) true),
     ("layout", .nested "layout" (schemaOfList
       [("print", .leaf "print" .int false),
        ("preserve_layout", .leaf "preserve_layout" .int false)]) true)]) true

/- reportingStatusDict, translated from data_xpack.go lines 127-132. -/
def reportingStatusDict : SchemaNode :=
  .nested "status" (schemaOfList
    [("completed", .leaf "completed" .int true),
     ("failed", .leaf "failed" .int true),
     ("processing", .leaf "processing" .int true),
     ("pending", .leaf "pending" .int true)]) true

/- reportingPeriodSchema, translated from data_xpack.go lines 134-139. -/
def reportingPeriodSchema : Schema :=
  schemaOfList
    [("_all", .leaf "all" .int false),
     ("csv", reportingCsvDict),
     ("printable_pdf", reportingPrintablePdfDict),
     ("status", reportingStatusDict)]

/- schemaXPackMonitoring, translated from data_xpack.go lines 32-107,
in the order of the Go literal. -/
def schemaXPackMonitoring : Schema :=
  schemaOfList
    [("concurrent_connections", .leaf "concurrent_connections" .int false),
     ("os", .nested "os" (schemaOfList
       [("load", .nested "load" (schemaOfList
         [("1m", .leaf "1m" .float false),
          ("5m", .leaf "5m" .float false),
          ("15m", .leaf "15m" .float false)]) false),
        ("memory", .nested "memory" (schemaOfList
          [("total_in_bytes", .leaf "total_bytes" .int false),
           ("free_in_bytes", .leaf "free_bytes" .int false),
           ("used_in_bytes", .leaf "used_bytes" .int false)]) false),
        ("uptime_in_millis", .leaf "uptime_ms" .int false)]) false),
     ("process", .nested "process" (schemaOfList
       [("event_loop_delay", .leaf "event_loop_delay" .float false),
        ("memory", .nested "memory" (schemaOfList
          [("heap", .nested "heap" (schemaOfList
            [("total_in_bytes", .leaf "total_bytes" .int false),
             ("used_in_bytes", .leaf "used_bytes" .int false),
             ("size_limit", .leaf "size_limit" .int false)]) false)]) false),
        ("uptime_in_millis", .leaf "uptime_ms" .int false)]) false),
     ("requests", RequestsDict),
     ("response_times", .nested "response_times" (schemaOfList
       [("average", .leaf "avg_ms" .int true),
        ("max", .leaf "max_ms" .int true)]) true),
     ("kibana", .nested "kibana" (schemaOfList
       [("uuid", .leaf "uuid" .str false),
        ("name", .leaf "name" .str false),
        ("index", .leaf "index" .str false),
        ("host", .leaf "host" .str false),
        ("transport_address", .leaf "transport_address" .str false),
        ("version", .leaf "version" .str false),
        ("snapshot", .leaf "snapshot" .bool false),
        ("status", .leaf "status" .str false)]) false),
     ("usage", .nested "usage" (schemaOfList
       [("index", .leaf "kibana.index" .str false),
        ("index_pattern", .nested "kibana.index_pattern" (schemaOfList
          [("total", .leaf "total" .int false)]) false),
        ("search", .nested "kibana.search" (schemaOfList
          [("total", .leaf "total" .int false)]) false),
        ("visualization", .nested "kibana.visualization" (schemaOfList
          [("total", .leaf "total" .int false)]) false),
        ("dashboard", .nested "kibana.dashboard" (schemaOfList
          [("total", .leaf "total" .int false)]) false),
        ("timelion_sheet", .nested "kibana.timelion_sheet" (schemaOfList
          [("total", .leaf "total" .int false)]) false),
        ("graph_workspace", .nested "kibana.graph_workspace" (schemaOfList
          [("total", .leaf "total" .int false)]) false),
        ("xpack", .object (schemaOfList
          [("reporting", .nested "reporting" (schemaOfList
            [("available", .leaf "available" .bool false),
             ("enabled", .leaf "enabled" .bool false),
             ("browser_type", .leaf "browser_type" .str false),
             ("_all", .leaf "all" .int false),
             ("csv", reportingCsvDict),
             ("printable_pdf", reportingPrintablePdfDict),
             ("status", reportingStatusDict),
             ("lastDay", .nested "last_day" reportingPeriodSchema true),
             ("last7Days", .nested "last_7_days" reportingPeriodSchema true)]) true)]))]) false)]

/-
Modelled from the spec: the index routing function
elastic.MakeXPackMonitoringIndexName is a collaborator excluded from
the core (spec sections 4.2 and 6); only the fact that it supplies the
event's index string matters here.
-/
def makeXPackMonitoringIndexName : String :=
  ".monitoring-kibana"

/- The output event: root fields plus index, the model of mb.Event as
used by the source (RootFields and Index only). -/
structure Event where
  rootFields : Document
  index : String

/-
Modelled from the spec: the hard errors the mapping function can hand
to the reporter collaborator (spec section 7): a decode failure, the
aggregate error of a schema application with at least one failed field,
and a missing-field error from a manual patch extraction
(elastic.ReportErrorForMissingField).
-/
inductive RError where
  | decodeFailure
  | applyFailure (errs : List FieldError)
  | missingField (field : String)
deriving DecidableEq

/- The return of one run: a nil return, a non-nil error, or a runtime
panic (an unchecked Go type assertion failing). -/
inductive Ret where
  | ok
  | err (e : RError)
  | panicked
deriving DecidableEq

/- The observable outcome of one invocation of the mapping function:
the errors handed to the reporter (in order), the events handed to
r.Event (in order), and how the call returned. -/
structure Outcome where
  reported : List RError
  emitted : List Event
  ret : Ret

/- The rss patch extraction of data_xpack.go lines 156-168, as one
total function: the three unchecked-ok type assertions in sequence. -/
def extractRss (data : Document) : Option Rat :=
  match getKey data "process" with
  | some (.doc process) =>
    match getKey process "memory" with
    | some (.doc memory) =>
      match getKey memory "resident_set_size_bytes" with
      | some (.num rss) => some rss
      | _ => none
    | _ => none
  | _ => none

/- The two Put calls of data_xpack.go lines 169 and 172: the manual
rss patch (int64 truncation) followed by the timestamp stamp. -/
def patchedFields (ts : Int) (out : Document) (rss : Rat) : Document :=
  putPath
    (putPath out ["process", "memory", "resident_set_size_in_bytes"]
      (.int (truncNum rss)))
    ["timestamp"] (.time ts)

/- The event literal of data_xpack.go lines 174-183. -/
def assembledEvent (intervalMs ts : Int) (out : Document) (rss : Rat)
    (clusterUuid : String) : Event :=
  ⟨[("cluster_uuid", .str clusterUuid),
    ("timestamp", .time ts),
    ("interval_ms", .int intervalMs),
    ("type", .str "kibana_stats"),
    ("kibana_stats", .doc (patchedFields ts out rss))],
   makeXPackMonitoringIndexName⟩

/-
eventMappingXPack, translated from data_xpack.go lines 142-187.  JSON
decoding is a collaborator (spec section 6), so the function takes the
decode result: none models a decode failure.  time.Now() is modelled by
the parameter ts.  A failing schema application (non-empty error list,
the model of a non-nil aggregate error) is reported and returned; each
failing patch assertion is reported as a missing field and returned;
the unchecked type assertion on data["cluster_uuid"] panics when the
key is absent or not a string; otherwise the assembled event is handed
to r.Event and nil is returned.
-/
def eventMappingXPack (intervalMs ts : Int) (decoded : Option Document) :
    Outcome :=
  match decoded with
  | none => ⟨[.decodeFailure], [], .err .decodeFailure⟩
  | some data =>
    match applySchema schemaXPackMonitoring data with
    | (_, e :: es) =>
      ⟨[.applyFailure (e :: es)], [], .err (.applyFailure (e :: es))⟩
    | (kibanaStatsFields, []) =>
      match getKey data "process" with
      | some (.doc process) =>
        match getKey process "memory" with
        | some (.doc memory) =>
          match getKey memory "resident_set_size_bytes" with
          | some (.num rss) =>
            match getKey data "cluster_uuid" with
            | some (.str clusterUuid) =>
              ⟨[], [assembledEvent intervalMs ts kibanaStatsFields rss clusterUuid],
               .ok⟩
            | _ => ⟨[], [], .panicked⟩
          | _ =>
            ⟨[.missingField "process.memory.resident_set_size_bytes"], [],
             .err (.missingField "process.memory.resident_set_size_bytes")⟩
        | _ =>
          ⟨[.missingField "process.memory"], [],
           .err (.missingField "process.memory")⟩
      | _ =>
        ⟨[.missingField "process"], [], .err (.missingField "process")⟩

/- The single emitted event of an outcome, when there is exactly one. -/
def emittedEvent (o : Outcome) : Option Event :=
  match o.emitted with
  | [e] => some e
  | _ => none

/- The mapped sub-document of an event's root fields. -/
def statsSubDoc (e : Event) : Option Document :=
  match getKey e.rootFields "kibana_stats" with
  | some (.doc kf) => some kf
  | _ => none

/- The end-to-end scenario input of the spec (section 8): cluster_uuid
"c1" and a process.memory.resident_set_size_bytes of 123.0, nothing
else. -/
def minimalInput : Document :=
  [("cluster_uuid", .str "c1"),
   ("process", .doc
     [("memory", .doc [("resident_set_size_bytes", .num 123)])])]

/- An input satisfying every required node of schemaXPackMonitoring,
parameterized by the fields preceding "process" (the cluster_uuid slot)
and by the raw resident_set_size_bytes value. -/
def filledInput (pre : Document) (rssVal : Value) : Document :=
  pre ++
  [("concurrent_connections", .num 5),
   ("os", .doc
     [("load", .doc [("1m", .num 1), ("5m", .num 1), ("15m", .num 1)]),
      ("memory", .doc
        [("total_bytes", .num 1), ("free_bytes", .num 1),
         ("used_bytes", .num 1)]),
      ("uptime_ms", .num 1)]),
   ("process", .doc
     [("event_loop_delay", .num 1),
      ("memory", .doc
        [("heap", .doc
          [("total_bytes", .num 1), ("used_bytes", .num 1),
           ("size_limit", .num 1)]),
         ("resident_set_size_bytes", rssVal)]),
      ("uptime_ms", .num 1)]),
   ("requests", .doc [("disconnects", .num 0), ("total", .num 1)]),
   ("kibana", .doc
     [("uuid", .str "u"), ("name", .str "n"), ("index", .str "i"),
      ("host", .str "h"), ("transport_address", .str "t"),
      ("version", .str "v"), ("snapshot", .bool false),
      ("status", .str "green")]),
   ("usage", .doc
     [("kibana", .doc
       [("index", .str "ki"),
        ("index_pattern", .doc [("total", .num 1)]),
        ("search", .doc [("total", .num 1)]),
        ("visualization", .doc [("total", .num 1)]),
        ("dashboard", .doc [("total", .num 1)]),
        ("timelion_sheet", .doc [("total", .num 1)]),
        ("graph_workspace", .doc [("total", .num 1)])])])]

/- The filled input with cluster_uuid "c1" and rss 123.0. -/
def fullInput : Document :=
  filledInput [("cluster_uuid", .str "c1")] (.num 123)

/- The filled input without any cluster_uuid key. -/
def fullInputNoUuid : Document :=
  filledInput [] (.num 123)

/- The filled input whose resident_set_size_bytes is the string "123"
rather than a number. -/
def fullInputRssStr : Document :=
  filledInput [("cluster_uuid", .str "c1")] (.str "123")

/- ------------------------------------------------------------------ -/
/- Helper lemmas.                                                      -/
/- ------------------------------------------------------------------ -/

theorem getKey_setKey_self (d : Document) (k : String) (v : Value) :
    getKey (setKey d k v) k = some v := by
  induction d with
  | nil => simp [setKey, getKey]
  | cons hd tl ih =>
    obtain ⟨k', w⟩ := hd
    by_cases h : k' = k <;> simp [setKey, getKey, h, ih]

theorem getKey_setKey_ne (d : Document) (k' k : String) (v : Value)
    (h : k' ≠ k) : getKey (setKey d k' v) k = getKey d k := by
  induction d with
  | nil => simp [setKey, getKey, h]
  | cons hd tl ih =>
    obtain ⟨k0, w⟩ := hd
    by_cases h0 : k0 = k' <;> simp [setKey, getKey, h0, h, ih]

theorem getKey_append_none (a b : Document) (k : String)
    (h : getKey a k = none) : getKey (a ++ b) k = getKey b k := by
  induction a with
  | nil => simp
  | cons hd tl ih =>
    obtain ⟨k', v⟩ := hd
    by_cases e : k' = k
    · simp [getKey, e] at h
    · simp only [getKey, List.cons_append, if_neg e] at h ⊢
      exact ih h

theorem getKey_putPath_ne (d : Document) (k1 : String) (p : List String)
    (v : Value) (k : String) (h : k1 ≠ k) :
    getKey (putPath d (k1 :: p) v) k = getKey d k := by
  cases p with
  | nil => simp [putPath, getKey_setKey_ne _ _ _ _ h]
  | cons k2 rest =>
    simp only [putPath]
    cases hg : getKey d k1 with
    | none => simp [getKey_setKey_ne _ _ _ _ h]
    | some w => cases w <;> simp [getKey_setKey_ne _ _ _ _ h]

theorem getPath_putPath : ∀ (p : List String) (d : Document) (v : Value),
    p ≠ [] → getPath (putPath d p v) p = some v
  | [], _, _, h => absurd rfl h
  | [k], d, v, _ => by
    simp [putPath, getPath, getKey_setKey_self]
  | k :: k2 :: rest, d, v, _ => by
    have ihsub : ∀ sub : Document,
        getPath (putPath sub (k2 :: rest) v) (k2 :: rest) = some v :=
      fun sub => getPath_putPath (k2 :: rest) sub v (by simp)
    simp only [putPath]
    cases hg : getKey d k with
    | none => simp [getPath, getKey_setKey_self, ihsub]
    | some w => cases w <;> simp [getPath, getKey_setKey_self, ihsub]

theorem getPath_cons_of_getKey_eq (d d' : Document) (k : String)
    (rest : List String) (h : getKey d k = getKey d' k) :
    getPath d (k :: rest) = getPath d' (k :: rest) := by
  cases rest <;> simp [getPath, h]

theorem resolve_congr (d d' : Document) (sk : String)
    (h : ∀ k, getKey d k = getKey d' k) : resolve d sk = resolve d' sk := by
  unfold resolve
  cases splitDots sk with
  | nil => simp [getPath]
  | cons k rest => exact getPath_cons_of_getKey_eq d d' k rest (h k)

theorem applyNode_keys (fname : String) (node : SchemaNode) (d : Document)
    (k : String) (h : fname ≠ k) :
    getKey (applyNode fname node d).1 k = none := by
  cases node with
  | leaf sk kind opt =>
    simp only [applyNode]
    cases resolve d sk with
    | none => cases opt <;> simp [getKey]
    | some v =>
      cases hc : coerce kind v with
      | none => simp [getKey, hc]
      | some w => simp [getKey, hc, h]
  | nested sk child opt =>
    simp only [applyNode]
    cases resolve d sk with
    | none => cases opt <;> simp [getKey]
    | some v => cases v <;> simp [getKey, h]
  | object child => simp [applyNode, getKey, h]

theorem applySchema_keys : ∀ (s : Schema) (d : Document) (k : String),
    k ∉ schemaNames s → getKey (applySchema s d).1 k = none
  | .nil, d, k, _ => by simp [applySchema, getKey]
  | .cons fname node rest, d, k, h => by
    simp only [schemaNames, List.mem_cons, not_or] at h
    have h1 : fname ≠ k := fun e => h.1 e.symm
    have ih := applySchema_keys rest d k h.2
    simp only [applySchema]
    rw [getKey_append_none _ _ _ (applyNode_keys fname node d k h1), ih]

mutual
theorem applyNode_congr (fname : String) (node : SchemaNode)
    (d d' : Document) (h : ∀ k, getKey d k = getKey d' k) :
    applyNode fname node d = applyNode fname node d' := by
  cases node with
  | leaf sk kind opt =>
    simp only [applyNode, resolve_congr d d' sk h]
  | nested sk child opt =>
    simp only [applyNode, resolve_congr d d' sk h]
  | object child =>
    simp only [applyNode, applySchema_congr child d d' h]

theorem applySchema_congr (s : Schema) (d d' : Document)
    (h : ∀ k, getKey d k = getKey d' k) :
    applySchema s d = applySchema s d' := by
  cases s with
  | nil => rfl
  | cons fname node rest =>
    simp only [applySchema, applyNode_congr fname node d d' h,
      applySchema_congr rest d d' h]
end

theorem emittedEvent_inv (intervalMs ts : Int) (decoded : Option Document)
    (e : Event)
    (h : emittedEvent (eventMappingXPack intervalMs ts decoded) = some e) :
    ∃ data out rss clusterUuid,
      decoded = some data ∧
      applySchema schemaXPackMonitoring data = (out, []) ∧
      extractRss data = some rss ∧
      getKey data "cluster_uuid" = some (.str clusterUuid) ∧
      e = assembledEvent intervalMs ts out rss clusterUuid := by
  cases decoded with
  | none => simp [eventMappingXPack, emittedEvent] at h
  | some data =>
    rcases happ : applySchema schemaXPackMonitoring data with ⟨out, errs⟩
    cases errs with
    | cons e0 es => simp [eventMappingXPack, happ, emittedEvent] at h
    | nil =>
      cases hg1 : getKey data "process" with
      | none => simp [eventMappingXPack, happ, hg1, emittedEvent] at h
      | some vp =>
        cases vp
        case doc process =>
          cases hg2 : getKey process "memory" with
          | none => simp [eventMappingXPack, happ, hg1, hg2, emittedEvent] at h
          | some vm =>
            cases vm
            case doc memory =>
              cases hg3 : getKey memory "resident_set_size_bytes" with
              | none =>
                simp [eventMappingXPack, happ, hg1, hg2, hg3, emittedEvent] at h
              | some vr =>
                cases vr
                case num rss =>
                  cases hg4 : getKey data "cluster_uuid" with
                  | none =>
                    simp [eventMappingXPack, happ, hg1, hg2, hg3, hg4,
                      emittedEvent] at h
                  | some vc =>
                    cases vc
                    case str cu =>
                      refine ⟨data, out, rss, cu, rfl, happ, ?_, hg4, ?_⟩
                      · simp [extractRss, hg1, hg2, hg3]
                      · simp [eventMappingXPack, happ, hg1, hg2, hg3, hg4,
                          emittedEvent] at h
                        exact h.symm
                    all_goals
                      simp [eventMappingXPack, happ, hg1, hg2, hg3, hg4,
                        emittedEvent] at h
                all_goals
                  simp [eventMappingXPack, happ, hg1, hg2, hg3, emittedEvent] at h
            all_goals
              simp [eventMappingXPack, happ, hg1, hg2, emittedEvent] at h
        all_goals simp [eventMappingXPack, happ, hg1, emittedEvent] at h

/- ------------------------------------------------------------------ -/
/- Claim theorems.                                                     -/
/- ------------------------------------------------------------------ -/

/-- Claim C1, counterexample: on exactly the input document of the claim
(cluster_uuid "c1" and process.memory.resident_set_size_bytes 123.0,
nothing else) with interval 10000, eventMappingXPack emits no event at
all: the schema application reports its required fields missing, so the
function returns the aggregate error instead. -/
theorem endToEnd_minimal_is_error :
    (eventMappingXPack 10000 0 (some minimalInput)).emitted = [] ∧
    (eventMappingXPack 10000 0 (some minimalInput)).ret
      = .err (.applyFailure
          [⟨"concurrent_connections", .missingField⟩,
           ⟨"os", .missingField⟩,
           ⟨"process.event_loop_delay", .missingField⟩,
           ⟨"process.memory.heap", .missingField⟩,
           ⟨"process.uptime_ms", .missingField⟩,
           ⟨"requests", .missingField⟩,
           ⟨"kibana", .missingField⟩,
           ⟨"usage", .missingField⟩]) :=
  ⟨rfl, rfl⟩

/-- Claim C1 (amended): for an input carrying cluster_uuid "c1" and
process.memory.resident_set_size_bytes 123.0 that additionally supplies
every field required by schemaXPackMonitoring, eventMappingXPack with
interval 10000 emits exactly one event whose root document contains
cluster_uuid "c1", interval_ms 10000, type "kibana_stats", and the
manually patched integer field
process.memory.resident_set_size_in_bytes = int64(123) inside the
mapped sub-document, and returns nil. -/
theorem endToEnd_full_event :
    (emittedEvent (eventMappingXPack 10000 0 (some fullInput))).map
        (fun e =>
          (getKey e.rootFields "cluster_uuid",
           getKey e.rootFields "interval_ms",
           getKey e.rootFields "type",
           (statsSubDoc e).bind
             (fun kf =>
               getPath kf ["process", "memory", "resident_set_size_in_bytes"])))
      = some (some (.str "c1"), some (.int 10000),
              some (.str "kibana_stats"), some (.int 123)) ∧
    (eventMappingXPack 10000 0 (some fullInput)).ret = .ok :=
  ⟨rfl, rfl⟩

/-- Claim C2, counterexample: on a fully populated input the function
emits an event whose kibana_stats sub-document does contain the
metadata key "timestamp" (data_xpack.go line 172 writes the capture
timestamp into the mapped sub-document before assembling the root). -/
theorem timestamp_in_subdocument :
    ((emittedEvent (eventMappingXPack 10000 0 (some fullInput))).bind
        statsSubDoc).bind (fun kf => getKey kf "timestamp")
      = some (.time 0) :=
  rfl

/-- Claim C2 (amended): the collection interval, the document type tag
and the correlation identifier are stamped only at the document root:
for every successful invocation of eventMappingXPack, the kibana_stats
sub-document contains no "interval_ms", "type" or "cluster_uuid" key.
The capture timestamp, however, is written both at the root and inside
the mapped sub-document. -/
theorem metadataOnlyAtRoot (intervalMs ts : Int) (decoded : Option Document)
    (e : Event) (kf : Document)
    (he : emittedEvent (eventMappingXPack intervalMs ts decoded) = some e)
    (hk : statsSubDoc e = some kf) :
    getKey kf "interval_ms" = none ∧ getKey kf "type" = none ∧
      getKey kf "cluster_uuid" = none := by
  obtain ⟨data, out, rss, cu, _, happ, _, _, he⟩ :=
    emittedEvent_inv intervalMs ts decoded e he
  subst he
  have hsub : statsSubDoc (assembledEvent intervalMs ts out rss cu)
      = some (patchedFields ts out rss) := rfl
  rw [hsub] at hk
  injection hk with hk
  subst hk
  have hout : ∀ k : String, k ∉ schemaNames schemaXPackMonitoring →
      ("timestamp" : String) ≠ k → ("process" : String) ≠ k →
      getKey (patchedFields ts out rss) k = none := by
    intro k hmem h1 h2
    have h3 : getKey out k = none := by
      have h4 := applySchema_keys schemaXPackMonitoring data k hmem
      rwa [happ] at h4
    unfold patchedFields
    rw [getKey_putPath_ne _ _ _ _ _ h1, getKey_putPath_ne _ _ _ _ _ h2, h3]
  exact ⟨hout _ (by decide) (by decide) (by decide),
         hout _ (by decide) (by decide) (by decide),
         hout _ (by decide) (by decide) (by decide)⟩

/-- Witness for claim C2: the amended theorem applied to the fully
populated input, whose emitted event and sub-document are computed
explicitly. -/
theorem metadataOnlyAtRoot_witness :
    getKey (patchedFields 0 (applySchema schemaXPackMonitoring fullInput).1 123)
        "interval_ms" = none ∧
    getKey (patchedFields 0 (applySchema schemaXPackMonitoring fullInput).1 123)
        "type" = none ∧
    getKey (patchedFields 0 (applySchema schemaXPackMonitoring fullInput).1 123)
        "cluster_uuid" = none :=
  metadataOnlyAtRoot 10000 0 (some fullInput)
    (assembledEvent 10000 0 (applySchema schemaXPackMonitoring fullInput).1 123
      "c1")
    (patchedFields 0 (applySchema schemaXPackMonitoring fullInput).1 123)
    rfl rfl

/-- Claim C3: hard errors short-circuit.  Whenever JSON decoding fails,
schema application returns an error (a non-empty field-error list), or
any manual patch extraction (process, process.memory,
process.memory.resident_set_size_bytes) fails, eventMappingXPack hands
exactly that error to the reporter, returns it (non-nil), and never
calls r.Event. -/
theorem hardErrors_shortCircuit (intervalMs ts : Int)
    (decoded : Option Document)
    (h : decoded = none ∨ ∃ data, decoded = some data ∧
        ((applySchema schemaXPackMonitoring data).2 ≠ [] ∨
          extractRss data = none)) :
    ∃ er, (eventMappingXPack intervalMs ts decoded).ret = .err er ∧
      (eventMappingXPack intervalMs ts decoded).reported = [er] ∧
      (eventMappingXPack intervalMs ts decoded).emitted = [] := by
  suffices hs : ∃ er, eventMappingXPack intervalMs ts decoded
      = ⟨[er], [], .err er⟩ by
    obtain ⟨er, he⟩ := hs
    exact ⟨er, by rw [he], by rw [he], by rw [he]⟩
  rcases h with h | ⟨data, rfl, hfail⟩
  · subst h
    exact ⟨.decodeFailure, rfl⟩
  · rcases happ : applySchema schemaXPackMonitoring data with ⟨out, errs⟩
    cases errs with
    | cons e0 es =>
      exact ⟨.applyFailure (e0 :: es), by simp [eventMappingXPack, happ]⟩
    | nil =>
      have hrss : extractRss data = none := by
        rcases hfail with hf | hf
        · rw [happ] at hf
          simp at hf
        · exact hf
      cases hg1 : getKey data "process" with
      | none =>
        exact ⟨.missingField "process", by simp [eventMappingXPack, happ, hg1]⟩
      | some vp =>
        cases vp
        case doc process =>
          cases hg2 : getKey process "memory" with
          | none =>
            exact ⟨.missingField "process.memory",
              by simp [eventMappingXPack, happ, hg1, hg2]⟩
          | some vm =>
            cases vm
            case doc memory =>
              cases hg3 : getKey memory "resident_set_size_bytes" with
              | none =>
                exact ⟨.missingField "process.memory.resident_set_size_bytes",
                  by simp [eventMappingXPack, happ, hg1, hg2, hg3]⟩
              | some vr =>
                cases vr
                case num rss =>
                  exfalso
                  rw [show extractRss data = some rss by
                    simp [extractRss, hg1, hg2, hg3]] at hrss
                  exact Option.noConfusion hrss
                all_goals
                  exact ⟨.missingField "process.memory.resident_set_size_bytes",
                    by simp [eventMappingXPack, happ, hg1, hg2, hg3]⟩
            all_goals
              exact ⟨.missingField "process.memory",
                by simp [eventMappingXPack, happ, hg1, hg2]⟩
        all_goals
          exact ⟨.missingField "process",
            by simp [eventMappingXPack, happ, hg1]⟩

/-- Witness for claim C3: a failing decode, concretely. -/
theorem hardErrors_shortCircuit_witness :
    (eventMappingXPack 10000 0 none).emitted = [] :=
  (hardErrors_shortCircuit 10000 0 none (Or.inl rfl)).choose_spec.2.2

/-- Claim C4: best-effort mapping.  A schema of two independent required
leaves, applied to a document where the first source key resolves and
coerces while the second is absent, yields the present field's coerced
value in the output next to an error list of exactly one missing-field
entry — the error does not suppress the sibling value. -/
theorem bestEffort_partialFailure (f1 f2 sk1 sk2 : String) (k1 k2 : Kind)
    (d : Document) (v w : Value)
    (h1 : resolve d sk1 = some v) (h2 : coerce k1 v = some w)
    (h3 : resolve d sk2 = none) :
    applySchema
        (schemaOfList [(f1, .leaf sk1 k1 false), (f2, .leaf sk2 k2 false)]) d
      = ([(f1, w)], [⟨sk2, .missingField⟩]) := by
  simp [schemaOfList, applySchema, applyNode, h1, h2, h3]

/-- Witness for claim C4: the spec's concrete instance, one present and
one absent required integer leaf. -/
theorem bestEffort_partialFailure_witness :
    applySchema
        (schemaOfList
          [("p", .leaf "p" .int false), ("q", .leaf "q" .int false)])
        [("p", .num 7)]
      = ([("p", .int 7)], [⟨"q", .missingField⟩]) :=
  bestEffort_partialFailure "p" "q" "p" "q" .int .int [("p", .num 7)]
    (.num 7) (.int 7) rfl rfl rfl

/-- Claim C5: optionality.  For any single-node schema (leaf or nested
dictionary) whose source key does not resolve in the input: marked
optional, the output has no key and the error list is empty; marked
required, the output has no key and the error list is exactly one
MissingField for that source key. -/
theorem optionality_required_vs_optional (f sk : String) (kind : Kind)
    (child : Schema) (d : Document) (h : resolve d sk = none) :
    applySchema (schemaOfList [(f, .leaf sk kind true)]) d = ([], []) ∧
    applySchema (schemaOfList [(f, .nested sk child true)]) d = ([], []) ∧
    applySchema (schemaOfList [(f, .leaf sk kind false)]) d
      = ([], [⟨sk, .missingField⟩]) ∧
    applySchema (schemaOfList [(f, .nested sk child false)]) d
      = ([], [⟨sk, .missingField⟩]) := by
  refine ⟨?_, ?_, ?_, ?_⟩ <;> simp [schemaOfList, applySchema, applyNode, h]

/-- Witness for claim C5: the "completed" counter of the reporting
status dictionary, absent from an empty input. -/
theorem optionality_required_vs_optional_witness :
    applySchema (schemaOfList [("completed", .leaf "completed" .int true)]) []
      = ([], []) ∧
    applySchema (schemaOfList [("completed", .nested "completed" .nil true)]) []
      = ([], []) ∧
    applySchema (schemaOfList [("completed", .leaf "completed" .int false)]) []
      = ([], [⟨"completed", .missingField⟩]) ∧
    applySchema
        (schemaOfList [("completed", .nested "completed" .nil false)]) []
      = ([], [⟨"completed", .missingField⟩]) :=
  optionality_required_vs_optional "completed" "completed" .int .nil [] rfl

theorem truncNum_of_nonneg (q : Rat) (h : 0 ≤ q) : truncNum q = ⌊q⌋ := by
  unfold truncNum
  rw [Int.tdiv_eq_ediv (Rat.num_nonneg.mpr h) (Int.natCast_nonneg _),
    Rat.floor_def]

theorem truncNum_of_neg (q : Rat) (h : q < 0) : truncNum q = ⌈q⌉ := by
  have h1 : truncNum (-q) = ⌊-q⌋ := truncNum_of_nonneg (-q) (by linarith)
  have h2 : truncNum (-q) = -truncNum q := by
    unfold truncNum
    rw [Rat.neg_num, Rat.neg_den, Int.neg_tdiv]
  have h3 : ⌊-q⌋ = -⌈q⌉ := Int.floor_neg
  omega

/-- Claim C6: integer coercion truncates toward zero.  An Int leaf
applied to any Number value yields its truncation toward zero (the
floor for nonnegative numbers, the ceiling for negative ones; 42.0
yields 42), and the manual resident_set_size patch converts the raw
number by the same truncation into
process.memory.resident_set_size_in_bytes of every emitted event. -/
theorem intCoercion_truncation :
    (∀ q : Rat,
      applySchema (schemaOfList [("f", .leaf "k" .int false)])
          [("k", .num q)]
        = ([("f", .int (truncNum q))], [])) ∧
    (∀ q : Rat, 0 ≤ q → truncNum q = ⌊q⌋) ∧
    (∀ q : Rat, q < 0 → truncNum q = ⌈q⌉) ∧
    truncNum 42 = 42 ∧
    (∀ (intervalMs ts : Int) (decoded : Option Document) (e : Event)
        (rss : Rat),
      emittedEvent (eventMappingXPack intervalMs ts decoded) = some e →
      (∃ data, decoded = some data ∧ extractRss data = some rss) →
      (statsSubDoc e).bind
          (fun kf =>
            getPath kf ["process", "memory", "resident_set_size_in_bytes"])
        = some (.int (truncNum rss))) := by
  refine ⟨?_, truncNum_of_nonneg, truncNum_of_neg, rfl, ?_⟩
  · intro q
    have hres : resolve [("k", .num q)] "k" = some (.num q) := rfl
    simp [schemaOfList, applySchema, applyNode, hres, coerce]
  · intro intervalMs ts decoded e rss hemit hdata
    obtain ⟨data, rfl, hrss⟩ := hdata
    obtain ⟨data', out, rss', cu, hd, happ, hrss', hcu, he⟩ :=
      emittedEvent_inv intervalMs ts (some data) e hemit
    injection hd with hd
    subst hd
    rw [hrss] at hrss'
    injection hrss' with hrss'
    subst hrss'
    subst he
    have hsub : statsSubDoc (assembledEvent intervalMs ts out rss cu)
        = some (patchedFields ts out rss) := rfl
    rw [hsub]
    show getPath (patchedFields ts out rss)
        ["process", "memory", "resident_set_size_in_bytes"]
      = some (.int (truncNum rss))
    unfold patchedFields
    rw [getPath_cons_of_getKey_eq _ _ _ _
      (getKey_putPath_ne _ _ _ _ _ (by decide))]
    exact getPath_putPath _ _ _ (by simp)

/-- Witness for claim C6: truncation at 7/2 and -7/2, the Int leaf at
42.0, and the patched field of the concrete emitted event. -/
theorem intCoercion_truncation_witness :
    truncNum (mkRat 7 2) = ⌊mkRat 7 2⌋ ∧
    truncNum (mkRat (-7) 2) = ⌈mkRat (-7) 2⌉ ∧
    applySchema (schemaOfList [("f", .leaf "k" .int false)]) [("k", .num 42)]
      = ([("f", .int (truncNum 42))], []) ∧
    (statsSubDoc
        (assembledEvent 10000 0 (applySchema schemaXPackMonitoring fullInput).1
          123 "c1")).bind
        (fun kf =>
          getPath kf ["process", "memory", "resident_set_size_in_bytes"])
      = some (.int (truncNum 123)) :=
  ⟨intCoercion_truncation.2.1 _ (by decide),
   intCoercion_truncation.2.2.1 _ (by decide),
   intCoercion_truncation.1 42,
   intCoercion_truncation.2.2.2.2 10000 0 (some fullInput) _ 123 rfl
     ⟨fullInput, rfl, rfl⟩⟩

/-- Claim C7: nested flattening with dotted source keys.  A schema with
a nested node at source key "a.b" mapping to target "x" and containing
a required leaf c: applied to a document where a.b.c is 5 it yields
x.c = 5; applied to a document where b is missing under a, the optional
node yields empty output and no error, and the required node yields
exactly MissingField("a.b"). -/
theorem nestedFlattening :
    applySchema
        (schemaOfList
          [("x", .nested "a.b"
            (schemaOfList [("c", .leaf "c" .int false)]) false)])
        [("a", .doc [("b", .doc [("c", .num 5)])])]
      = ([("x", .doc [("c", .int 5)])], []) ∧
    applySchema
        (schemaOfList
          [("x", .nested "a.b"
            (schemaOfList [("c", .leaf "c" .int false)]) true)])
        [("a", .doc [])]
      = ([], []) ∧
    applySchema
        (schemaOfList
          [("x", .nested "a.b"
            (schemaOfList [("c", .leaf "c" .int false)]) false)])
        [("a", .doc [])]
      = ([], [⟨"a.b", .missingField⟩]) :=
  ⟨rfl, rfl, rfl⟩

/-- Claim C8: determinism of schema application.  The result of
applying schemaXPackMonitoring — output document and ordered error list
alike — is determined by the input document's key lookup function
alone: two applications to documents with identical lookups (in
particular, two applications to the same input) yield identical
results. -/
theorem schemaApplication_deterministic (d d' : Document)
    (h : ∀ k, getKey d k = getKey d' k) :
    applySchema schemaXPackMonitoring d = applySchema schemaXPackMonitoring d' :=
  applySchema_congr schemaXPackMonitoring d d' h

/-- Witness for claim C8: two representations of the same two-field
document, in opposite entry orders. -/
theorem schemaApplication_deterministic_witness :
    applySchema schemaXPackMonitoring [("a", .num 1), ("b", .num 2)]
      = applySchema schemaXPackMonitoring [("b", .num 2), ("a", .num 1)] :=
  schemaApplication_deterministic _ _ (fun k => by
    by_cases h1 : "a" = k
    · cases h1
      rfl
    · by_cases h2 : "b" = k
      · cases h2
        rfl
      · simp [getKey, h1, h2])

/-- Claim C9: for an input that decodes, passes schema application and
yields the resident_set_size patch but has no cluster_uuid key, the
unchecked type assertion on data["cluster_uuid"] panics: no error is
returned, nothing is reported, and no event is emitted. -/
theorem clusterUuid_panic :
    eventMappingXPack 10000 0 (some fullInputNoUuid)
      = ⟨[], [], .panicked⟩ :=
  rfl

/-- Claim C10: a present but non-numeric
process.memory.resident_set_size_bytes (here the string "123") is
classified and reported as a missing field — not as a type mismatch —
because the extraction is a single type assertion to float64 whose
failure is treated as absence. -/
theorem rssString_missingField :
    eventMappingXPack 10000 0 (some fullInputRssStr)
      = ⟨[.missingField "process.memory.resident_set_size_bytes"], [],
         .err (.missingField "process.memory.resident_set_size_bytes")⟩ :=
  rfl

end KibanaStats
